import Mathlib

/-!
Verification of the AWS e-commerce Flask application (`src/flask_app.py`)
against its natural-language specification.

The application is shallowly embedded: the MySQL `products`, `orders` and
`order_items` tables become lists of structures; each request handler becomes
a pure function from the database state (and session cart, and raw form
fields) to a response value together with the resulting database state and
session cart.  SQL `ORDER BY created_at DESC` is modelled by `mergeSort`,
`LIMIT`/`OFFSET` by `take`/`drop`, `WHERE` clauses by `filter`.  Python `int()`
conversion of form fields is modelled by `pyInt?` returning `Option Int`
(`none` models the `ValueError`/`TypeError` that the handler's catch-all
`except` turns into a 500 response).  `DECIMAL` prices are modelled as `ℚ`.
-/

namespace ECommerce

/-- A row of the `products` table (see `init_database` in `flask_app.py`). -/
structure Product where
  id : Int
  name : String
  price : ℚ
  description : String
  image_url : String
  category : String
  stock_quantity : Int
  active : Bool
  featured : Bool
  created_at : Int
deriving DecidableEq

/-- A row of the `orders` table.  Customer fields come from
`request.form.get(...)`, which yields `None` when absent, hence `Option`. -/
structure Order where
  id : String
  customer_name : Option String
  customer_email : Option String
  customer_address : Option String
  customer_phone : Option String
  status : String
deriving DecidableEq

/-- A row of the `order_items` table (the store-generated surrogate id and
timestamp are omitted; the application never reads them). -/
structure OrderItem where
  order_id : String
  product_id : Int
  quantity : Int
deriving DecidableEq

/-- The relational store state. -/
structure DB where
  products : List Product
  orders : List Order
  order_items : List OrderItem
deriving DecidableEq

/-- A session cart entry: `{'id': product_id, 'quantity': quantity}`. -/
structure CartEntry where
  id : Int
  quantity : Int
deriving DecidableEq

/-- `ORDER BY created_at DESC`: newest first. -/
def byNewest (a b : Product) : Bool := decide (b.created_at ≤ a.created_at)

/-- Insert an element into a sorted list, keeping it sorted. -/
def insertSorted {α : Type} (le : α → α → Bool) (a : α) : List α → List α
  | [] => [a]
  | b :: bs => if le a b then a :: b :: bs else b :: insertSorted le a bs

/-- Stable insertion sort, modelling SQL `ORDER BY`. -/
def sortBy {α : Type} (le : α → α → Bool) : List α → List α
  | [] => []
  | a :: as => insertSorted le a (sortBy le as)

/-- The home-page query of `index` (lines 146-152):
`SELECT ... FROM products WHERE featured = 1 ORDER BY created_at DESC LIMIT 8`. -/
def index_route (ps : List Product) : List Product :=
  ((sortBy byNewest (ps.filter fun p => p.featured)).take 8)

/-- View-model rendered by the `/products` listing. -/
structure ProductsView where
  products : List Product
  page : Int
  total : Nat
  per_page : Nat
deriving DecidableEq

/-- `offset = (page - 1) * per_page` with `per_page = 12` (lines 197-198). -/
def products_offset (page : Int) : Int := (page - 1) * 12

/-- The `/products` listing handler (lines 196-220): active products sorted
newest-first, `LIMIT 12 OFFSET (page-1)*12`, plus the total active count
from `SELECT COUNT(*) ... WHERE active = 1`. -/
def products_route (ps : List Product) (page : Int) : ProductsView :=
  ProductsView.mk
    (((sortBy byNewest (ps.filter fun p => p.active)).drop
        (products_offset page).toNat).take 12)
    page
    ((ps.filter fun p => p.active).length)
    12

/-- The cart-page product query (lines 268-272):
`SELECT id, name, price, image_url FROM products WHERE id IN (...)`.
Note: no `active` filter. -/
def cart_query (ps : List Product) (ids : List Int) : List Product :=
  ps.filter fun p => ids.contains p.id

/-- `product_dict = {p['id']: p for p in products}` followed by lookup:
in a Python dict comprehension a later row with the same id overwrites an
earlier one, hence the lookup finds the last matching row. -/
def product_dict (rows : List Product) (i : Int) : Option Product :=
  rows.reverse.find? fun p => p.id == i

/-- One line of the rendered cart: the original session entry, enriched with
`item['product']` and `item['subtotal']` when the product id resolves. -/
structure CartLine where
  id : Int
  quantity : Int
  product : Option Product
  subtotal : Option ℚ
deriving DecidableEq

/-- The `/cart` handler (lines 256-282): resolve each session entry against
the current product rows; entries that resolve get
`subtotal = quantity * price` and contribute to the running total, entries
that do not resolve are left bare and contribute nothing.  `resolveEntry`
is the loop body (lines 276-280), `cart_route` the whole handler. -/
def resolveEntry (rows : List Product) (e : CartEntry) : CartLine :=
  match product_dict rows e.id with
  | some p =>
    CartLine.mk e.id e.quantity (some p) (some ((e.quantity : ℚ) * p.price))
  | none => CartLine.mk e.id e.quantity none none

def cart_route (ps : List Product) (cartItems : List CartEntry) :
    List CartLine × ℚ :=
  match cartItems with
  | [] => ([], 0)
  | _ =>
    let rows := cart_query ps (cartItems.map fun e => e.id)
    let lines := cartItems.map (resolveEntry rows)
    (lines, (lines.filterMap fun l => l.subtotal).sum)

/-- Strip leading and trailing whitespace, as Python `int()` does. -/
def pyTrim (cs : List Char) : List Char :=
  ((cs.dropWhile fun c => c.isWhitespace).reverse.dropWhile
    fun c => c.isWhitespace).reverse

/-- Value of a string of decimal digits. -/
def digitsVal (ds : List Char) : Nat :=
  ds.foldl (fun acc c => acc * 10 + (c.toNat - 48)) 0

/-- Python `int(s)` on a string: optional surrounding whitespace, optional
sign, then at least one decimal digit; anything else raises (`none`). -/
def pyInt? (s : String) : Option Int :=
  let t := pyTrim s.data
  let core : Int × List Char :=
    match t with
    | '-' :: ds => (-1, ds)
    | '+' :: ds => (1, ds)
    | ds => (1, ds)
  if core.2.length > 0 && core.2.all (fun c => c.isDigit) then
    some (core.1 * (digitsVal core.2 : Nat))
  else none

/-- `int(request.form.get('product_id'))` (line 291): a missing field gives
`int(None)` which raises `TypeError`, an unparseable field raises
`ValueError`; both are modelled as `none`. -/
def parsePid (field : Option String) : Option Int := field.bind pyInt?

/-- `int(request.form.get('quantity', 1))` (line 292): a missing field
defaults to `1`; a present but unparseable field raises (`none`). -/
def parseQty (field : Option String) : Option Int :=
  match field with
  | none => some 1
  | some s => pyInt? s

/-- Outcome of the `add_to_cart` handler, tagged by which response is built. -/
inductive AddStatus where
  | serverError
  | notFound
  | insufficientStock
  | success
deriving DecidableEq

/-- HTTP status code attached to each `add_to_cart` outcome
(500 / 404 / 400 / 200 in `flask_app.py`). -/
def httpCode : AddStatus → Nat
  | .serverError => 500
  | .notFound => 404
  | .insufficientStock => 400
  | .success => 200

/-- The cart-merge loop of `add_to_cart` (lines 311-316): the first entry
with a matching id gets its quantity incremented (`break`), otherwise a new
entry is appended at the end (`for`/`else`). -/
def mergeCart : List CartEntry → Int → Int → List CartEntry
  | [], pid, qty => [CartEntry.mk pid qty]
  | e :: rest, pid, qty =>
    if e.id == pid then CartEntry.mk e.id (e.quantity + qty) :: rest
    else e :: mergeCart rest pid qty

/-- The `/add_to_cart` POST handler (lines 287-326).  Returns the outcome,
the resulting session cart, and the resulting product table (the handler
only ever runs a `SELECT`, so the table is passed through unchanged). -/
def add_to_cart (ps : List Product) (cart : List CartEntry)
    (product_id_field quantity_field : Option String) :
    AddStatus × List CartEntry × List Product :=
  match parsePid product_id_field with
  | none => (.serverError, cart, ps)
  | some pid =>
    match parseQty quantity_field with
    | none => (.serverError, cart, ps)
    | some qty =>
      match (ps.filter fun p => p.id == pid && p.active).head? with
      | none => (.notFound, cart, ps)
      | some p =>
        if p.stock_quantity < qty then (.insufficientStock, cart, ps)
        else (.success, mergeCart cart pid qty, ps)

/-- The customer fields read from the checkout form (`form.get` → `Option`). -/
structure Customer where
  name : Option String
  email : Option String
  address : Option String
  phone : Option String
deriving DecidableEq

/-- Outcome of the checkout POST handler. -/
inductive CheckoutResult where
  | redirectToCart
  | orderSuccess (order_id : String)
deriving DecidableEq

/-- The `/checkout` POST handler (lines 338-376).  `oid` is the freshly
generated `uuid4` order id, supplied as an argument.  Returns the outcome,
the resulting store state, and the resulting session cart. -/
def checkout_post (db : DB) (cart : List CartEntry) (cust : Customer)
    (oid : String) : CheckoutResult × DB × List CartEntry :=
  if cart.isEmpty then (.redirectToCart, db, cart)
  else
    (.orderSuccess oid,
     DB.mk db.products
       (db.orders ++
         [Order.mk oid cust.name cust.email cust.address cust.phone "pending"])
       (db.order_items ++ cart.map fun e => OrderItem.mk oid e.id e.quantity),
     [])

/-- Characters kept by filename sanitization: ASCII alphanumerics, dot,
underscore and dash. -/
def isSafeChar (c : Char) : Bool :=
  c.isAlphanum || c == '.' || c == '_' || c == '-'

/-- Modelled from the spec: `werkzeug.utils.secure_filename` (imported by
`flask_app.py` but not part of this repository).  Per the spec,
"sanitization strips path separators and unsafe characters to prevent key
injection": every character outside the safe set is removed. -/
def secure_filename (s : String) : String :=
  String.mk (s.data.filter isSafeChar)

/-- The object-storage key built by `S3Manager.upload_file` (line 121):
`f"{folder}/{uuid.uuid4()}_{filename}"` with the sanitized filename, the
random token supplied as an argument. -/
def upload_key (folder token filename : String) : String :=
  folder ++ "/" ++ token ++ "_" ++ secure_filename filename

/-- Result of the trivial `SELECT 1` issued by the health check: either rows
(the gateway returned a list), a gateway failure (`execute_query` returned
`None`), or an exception raised inside the handler body. -/
inductive QueryOutcome where
  | rows (r : List Int)
  | failure
  | raised
deriving DecidableEq

/-- Response of the `/health` endpoint. -/
structure HealthResponse where
  status : String
  database : Option String
  code : Nat
deriving DecidableEq

/-- The `/health` handler (lines 162-190): any non-`None` query result (even
an empty row list) yields 200/healthy/connected; a `None` result yields
503/unhealthy/disconnected; an exception yields 503/unhealthy. -/
def health_check : QueryOutcome → HealthResponse
  | .rows _ => HealthResponse.mk "healthy" (some "connected") 200
  | .failure => HealthResponse.mk "unhealthy" (some "disconnected") 503
  | .raised => HealthResponse.mk "unhealthy" none 503

/-- A featured but inactive product (price 3.00), exercising the home query. -/
def ghost : Product := Product.mk 7 "ghost" 3 "" "" "" 5 false true 0

/-- An active, featured product with id 1 and price 10.00, stock 5. -/
def prodA : Product := Product.mk 1 "alpha" 10 "" "" "" 5 true true 0

/-- An active product with id 3 and price 5.00, stock 4. -/
def prodC : Product := Product.mk 3 "gamma" 5 "" "" "" 4 true false 0

theorem mem_insertSorted {α : Type} (le : α → α → Bool) (a x : α) (l : List α) :
    x ∈ insertSorted le a l ↔ x = a ∨ x ∈ l := by
  induction l with
  | nil => simp [insertSorted]
  | cons b bs ih =>
    simp only [insertSorted]
    by_cases h : le a b = true
    · simp [h]
    · simp only [h]
      simp [ih]
      tauto

theorem mem_sortBy {α : Type} (le : α → α → Bool) (x : α) (l : List α) :
    x ∈ sortBy le l ↔ x ∈ l := by
  induction l with
  | nil => simp [sortBy]
  | cons a as ih => simp [sortBy, mem_insertSorted, ih]

/-- C1 counterexample: the home query filters only on `featured = 1` (line
149), so a featured product with `active = false` is returned to shoppers,
and the cart query (lines 268-272) has no `active` filter, so the same
inactive product resolves in the cart and its price is charged into the
total.  This refutes the claim that every product in a shopper-facing
response has `active = true`. -/
theorem inactive_product_reaches_shopper :
    ghost ∈ index_route [ghost] ∧ ghost.active = false ∧
    ((cart_route [ghost] [CartEntry.mk 7 2]).1.map fun l => l.product)
      = [some ghost] ∧
    (cart_route [ghost] [CartEntry.mk 7 2]).2 = 6 := by
  refine ⟨by decide, rfl, by decide, ?_⟩
  have step : (cart_route [ghost] [CartEntry.mk 7 2]).2
      = ((2 : Int) : ℚ) * ghost.price + 0 := rfl
  rw [step]
  norm_num [ghost]

/-- C1 (amended): the listing route returns only active products; the home
route returns only featured products (it does not filter on `active`); the
cart route resolves entries against any current product whose id is in the
cart, whether active or not. -/
theorem shopper_routes_filters (ps : List Product) (page : Int) :
    (∀ p ∈ index_route ps, p.featured = true) ∧
    (∀ p ∈ (products_route ps page).products, p.active = true) ∧
    (∀ ids : List Int, ∀ p ∈ cart_query ps ids,
      p ∈ ps ∧ ids.contains p.id = true) := by
  refine ⟨?_, ?_, ?_⟩
  · intro p hp
    simp only [index_route] at hp
    have h1 := List.mem_of_mem_take hp
    rw [mem_sortBy] at h1
    exact (List.mem_filter.mp h1).2
  · intro p hp
    simp only [products_route] at hp
    have h1 := List.mem_of_mem_take hp
    have h2 := List.mem_of_mem_drop h1
    rw [mem_sortBy] at h2
    exact (List.mem_filter.mp h2).2
  · intro ids p hp
    exact List.mem_filter.mp hp

/-- C1 witness: the amended theorem applied to a one-product table. -/
theorem shopper_routes_filters_witness :
    prodA.featured = true ∧ prodA.active = true ∧
    (prodA ∈ [prodA] ∧ List.contains [(1 : Int)] prodA.id = true) := by
  have h := shopper_routes_filters [prodA] 1
  exact ⟨h.1 prodA (by decide), h.2.1 prodA (by decide),
    h.2.2 [(1 : Int)] prodA (by decide)⟩

/-- C5: for every page number P > 0 the `/products` listing takes at most 12
items, starting at offset exactly (P-1)*12 into the active products sorted
newest-first, and reports the total count of active products. -/
theorem products_pagination (ps : List Product) (page : Int)
    (hp : 0 < page) :
    (products_route ps page).products.length ≤ 12 ∧
    (products_route ps page).products =
      ((sortBy byNewest (ps.filter fun p => p.active)).drop
        (((page - 1) * 12).toNat)).take 12 ∧
    products_offset page = (page - 1) * 12 ∧
    (products_route ps page).total = (ps.filter fun p => p.active).length := by
  refine ⟨?_, rfl, rfl, rfl⟩
  exact le_trans (le_of_eq (List.length_take 12 _)) inf_le_left

/-- C5 witness: the pagination theorem applied at page 1 of a one-product
table. -/
theorem products_pagination_witness :
    (products_route [prodA] 1).products.length ≤ 12 ∧
    (products_route [prodA] 1).total = ([prodA].filter fun p => p.active).length := by
  have h := products_pagination [prodA] 1 (by decide)
  exact ⟨h.1, h.2.2.2⟩

/-- C6: the object-storage key is `<folder>/<token>_<sanitized filename>`,
the sanitized filename contains no path-separator characters, and in
particular sanitizing `../../evil.png` yields a separator-free name. -/
theorem upload_key_sanitized (folder token s : String) :
    upload_key folder token s
      = folder ++ "/" ++ token ++ "_" ++ secure_filename s ∧
    ((secure_filename s).data.all fun c => !(c == '/') && !(c == '\\')) = true ∧
    secure_filename "../../evil.png" = "....evil.png" := by
  refine ⟨rfl, ?_, by decide⟩
  rw [List.all_eq_true]
  intro c hc
  have hsafe : isSafeChar c = true := by
    have hmem : c ∈ s.data.filter isSafeChar := by
      simpa [secure_filename] using hc
    exact (List.mem_filter.mp hmem).2
  by_cases h1 : c = '/'
  · exact absurd hsafe (by subst h1; decide)
  · by_cases h2 : c = '\\'
    · exact absurd hsafe (by subst h2; decide)
    · simp [h1, h2]

/-- C7: the health endpoint answers 200 (with status "healthy" and
database "connected") exactly when the trivial `SELECT 1` produced a
non-failure result; a gateway failure or a raised exception answers 503. -/
theorem health_ok_iff_query_succeeds (o : QueryOutcome) :
    ((health_check o).code = 200 ↔ ∃ r, o = .rows r) ∧
    ((health_check o).code = 200 →
      (health_check o).status = "healthy" ∧
      (health_check o).database = some "connected") ∧
    ((∀ r, o ≠ .rows r) → (health_check o).code = 503) := by
  cases o with
  | rows r =>
    refine ⟨⟨fun _ => ⟨r, rfl⟩, fun _ => rfl⟩, fun _ => ⟨rfl, rfl⟩, ?_⟩
    intro h
    exact absurd rfl (h r)
  | failure =>
    refine ⟨⟨fun h => by simp [health_check] at h, ?_⟩, ?_, fun _ => rfl⟩
    · rintro ⟨r, h⟩
      exact QueryOutcome.noConfusion h
    · intro h
      simp [health_check] at h
  | raised =>
    refine ⟨⟨fun h => by simp [health_check] at h, ?_⟩, ?_, fun _ => rfl⟩
    · rintro ⟨r, h⟩
      exact QueryOutcome.noConfusion h
    · intro h
      simp [health_check] at h

/-- C7 witness: the health theorem applied to a successful `SELECT 1` and to
a gateway failure. -/
theorem health_ok_iff_query_succeeds_witness :
    (health_check (.rows [1])).code = 200 ∧
    (health_check .failure).code = 503 := by
  refine ⟨(health_ok_iff_query_succeeds (.rows [1])).1.mpr ⟨[1], rfl⟩, ?_⟩
  exact (health_ok_iff_query_succeeds .failure).2.2
    fun r h => QueryOutcome.noConfusion h

/-- C2: add-to-cart answers 404 when no active product matches the id, 400
when the requested quantity exceeds the matched product's stock, and in
every case (any form fields whatsoever) passes the product table through
unchanged — the handler only ever runs a `SELECT`. -/
theorem add_to_cart_rejections (ps : List Product) (cart : List CartEntry)
    (f1 f2 : Option String) (pid qty : Int)
    (hpid : parsePid f1 = some pid) (hqty : parseQty f2 = some qty) :
    ((ps.filter fun p => p.id == pid && p.active).head? = none →
      add_to_cart ps cart f1 f2 = (.notFound, cart, ps) ∧
      httpCode .notFound = 404) ∧
    (∀ p, (ps.filter fun p => p.id == pid && p.active).head? = some p →
      p.stock_quantity < qty →
      add_to_cart ps cart f1 f2 = (.insufficientStock, cart, ps) ∧
      httpCode .insufficientStock = 400) ∧
    (∀ g1 g2 : Option String, (add_to_cart ps cart g1 g2).2.2 = ps) := by
  refine ⟨?_, ?_, ?_⟩
  · intro h
    exact ⟨by simp [add_to_cart, hpid, hqty, h], rfl⟩
  · intro p hp hlt
    exact ⟨by simp [add_to_cart, hpid, hqty, hp, hlt], rfl⟩
  · intro g1 g2
    cases hg1 : parsePid g1 with
    | none => simp [add_to_cart, hg1]
    | some pid' =>
      cases hg2 : parseQty g2 with
      | none => simp [add_to_cart, hg1, hg2]
      | some qty' =>
        cases hh : (ps.filter fun p => p.id == pid' && p.active).head? with
        | none => simp [add_to_cart, hg1, hg2, hh]
        | some p =>
          by_cases hlt : p.stock_quantity < qty' <;>
            simp [add_to_cart, hg1, hg2, hh, hlt]

/-- C2 witness: a request for an absent id answers 404, an over-stock
request answers 400, and both leave the table unchanged. -/
theorem add_to_cart_rejections_witness :
    add_to_cart [prodA] [] (some "2") none = (.notFound, [], [prodA]) ∧
    add_to_cart [prodA] [] (some "1") (some "9")
      = (.insufficientStock, [], [prodA]) := by
  have h1 := add_to_cart_rejections [prodA] [] (some "2") none 2 1
    (by decide) (by decide)
  have h2 := add_to_cart_rejections [prodA] [] (some "1") (some "9") 1 9
    (by decide) (by decide)
  exact ⟨(h1.1 (by decide)).1, (h2.2.1 prodA (by decide) (by decide)).1⟩

/-- C3: a checkout POST on an empty cart redirects to the cart page and
touches nothing; on a cart of N entries it appends exactly one Order row
with status "pending" and exactly N Order-Item rows all carrying the new
order's id, leaves the product table alone, and clears the session cart. -/
theorem checkout_rows (db : DB) (cart : List CartEntry) (cust : Customer)
    (oid : String) :
    (cart = [] → checkout_post db cart cust oid = (.redirectToCart, db, cart)) ∧
    (cart ≠ [] →
      (checkout_post db cart cust oid).1 = .orderSuccess oid ∧
      (checkout_post db cart cust oid).2.1.orders =
        db.orders ++
          [Order.mk oid cust.name cust.email cust.address cust.phone "pending"] ∧
      (checkout_post db cart cust oid).2.1.order_items =
        db.order_items ++ cart.map (fun e => OrderItem.mk oid e.id e.quantity) ∧
      (checkout_post db cart cust oid).2.1.order_items.length =
        db.order_items.length + cart.length ∧
      (∀ it ∈ (checkout_post db cart cust oid).2.1.order_items.drop
          db.order_items.length, it.order_id = oid) ∧
      (checkout_post db cart cust oid).2.1.products = db.products ∧
      (checkout_post db cart cust oid).2.2 = []) := by
  constructor
  · intro h
    subst h
    rfl
  · intro h
    cases cart with
    | nil => exact absurd rfl h
    | cons e es =>
      refine ⟨rfl, rfl, rfl, by simp [checkout_post], ?_, rfl, rfl⟩
      intro it hit
      have hd : (checkout_post db (e :: es) cust oid).2.1.order_items.drop
          db.order_items.length
          = (e :: es).map fun x => OrderItem.mk oid x.id x.quantity := by
        show (db.order_items ++ (e :: es).map
            fun x => OrderItem.mk oid x.id x.quantity).drop
            db.order_items.length = _
        exact List.drop_left _ _
      rw [hd] at hit
      obtain ⟨x, _, rfl⟩ := List.mem_map.mp hit
      rfl

/-- C3 witness: the checkout theorem applied to an empty cart and to a
one-entry cart over an empty store. -/
theorem checkout_rows_witness :
    checkout_post (DB.mk [] [] []) [] (Customer.mk none none none none) "o1"
      = (.redirectToCart, DB.mk [] [] [], []) ∧
    (checkout_post (DB.mk [] [] []) [CartEntry.mk 1 2]
        (Customer.mk none none none none) "o1").2.1.orders
      = [Order.mk "o1" none none none none "pending"] ∧
    (checkout_post (DB.mk [] [] []) [CartEntry.mk 1 2]
        (Customer.mk none none none none) "o1").2.2 = [] := by
  have h1 := (checkout_rows (DB.mk [] [] []) []
    (Customer.mk none none none none) "o1").1 rfl
  have h2 := (checkout_rows (DB.mk [] [] []) [CartEntry.mk 1 2]
    (Customer.mk none none none none) "o1").2 (by simp)
  exact ⟨h1, by simpa using h2.2.1, h2.2.2.2.2.2.2⟩

theorem resolveEntry_fields (rows : List Product) (a : CartEntry) :
    (resolveEntry rows a).id = a.id ∧
    (resolveEntry rows a).quantity = a.quantity ∧
    (resolveEntry rows a).product = product_dict rows (resolveEntry rows a).id ∧
    ((resolveEntry rows a).product = none →
      (resolveEntry rows a).subtotal = none) ∧
    (∀ p, (resolveEntry rows a).product = some p →
      (resolveEntry rows a).subtotal
        = some (((resolveEntry rows a).quantity : ℚ) * p.price)) := by
  cases hd : product_dict rows a.id <;> simp [resolveEntry, hd]

/-- C4: the cart view enriches exactly the entries whose id resolves against
the current product rows (one line per session entry, ids and quantities
preserved), gives resolvable lines subtotal = quantity x price, leaves
unresolvable lines without a subtotal, and sums exactly the resolved
subtotals into the grand total; the cart [(id 1, qty 2), (id 3, qty 1)]
over products priced 10.00 and 5.00 totals 25.00. -/
theorem cart_view_totals (ps : List Product) (c : List CartEntry) :
    ((cart_route ps c).2
      = ((cart_route ps c).1.filterMap fun l => l.subtotal).sum) ∧
    ((cart_route ps c).1.map (fun l => (l.id, l.quantity))
      = c.map fun e => (e.id, e.quantity)) ∧
    (∀ l ∈ (cart_route ps c).1,
      l.product = product_dict (cart_query ps (c.map fun e => e.id)) l.id ∧
      (l.product = none → l.subtotal = none) ∧
      (∀ p, l.product = some p →
        l.subtotal = some ((l.quantity : ℚ) * p.price))) ∧
    (cart_route [prodA, prodC] [CartEntry.mk 1 2, CartEntry.mk 3 1]).2
      = 25 := by
  refine ⟨?_, ?_, ?_, ?_⟩
  · cases c with
    | nil => rfl
    | cons e es => rfl
  · cases c with
    | nil => rfl
    | cons e es =>
      simp only [cart_route, List.map_map]
      apply List.map_congr_left
      intro a _
      exact Prod.ext ((resolveEntry_fields _ a).1) ((resolveEntry_fields _ a).2.1)
  · intro l hl
    cases c with
    | nil => simp [cart_route] at hl
    | cons e es =>
      simp only [cart_route] at hl
      obtain ⟨a, _, rfl⟩ := List.mem_map.mp hl
      exact ⟨(resolveEntry_fields _ a).2.2.1, (resolveEntry_fields _ a).2.2.2.1,
        (resolveEntry_fields _ a).2.2.2.2⟩
  · have step : (cart_route [prodA, prodC]
        [CartEntry.mk 1 2, CartEntry.mk 3 1]).2
        = ((2 : Int) : ℚ) * prodA.price + (((1 : Int) : ℚ) * prodC.price + 0) :=
      rfl
    rw [step]
    norm_num [prodA, prodC]

/-- C4 witness: the cart theorem applied to the concrete worked example and
to a cart entry whose id resolves to no product. -/
theorem cart_view_totals_witness :
    (cart_route [prodA, prodC] [CartEntry.mk 1 2, CartEntry.mk 3 1]).2 = 25 ∧
    ((cart_route [prodA, prodC] [CartEntry.mk 1 2, CartEntry.mk 3 1]).1.map
      fun l => (l.id, l.quantity)) = [((1 : Int), (2 : Int)), (3, 1)] ∧
    (CartLine.mk 99 1 none none).subtotal = none := by
  have h := cart_view_totals [prodA, prodC] [CartEntry.mk 1 2, CartEntry.mk 3 1]
  have h2 := cart_view_totals [prodA] [CartEntry.mk 99 1]
  refine ⟨h.2.2.2, ?_, ?_⟩
  · rw [h.2.1]
    rfl
  · exact (h2.2.2.1 (CartLine.mk 99 1 none none) (by decide)).2.1 rfl

theorem mergeCart_ids (c : List CartEntry) (pid qty : Int) :
    ((mergeCart c pid qty).map fun e => e.id) =
      if pid ∈ c.map (fun e => e.id) then c.map fun e => e.id
      else (c.map fun e => e.id) ++ [pid] := by
  induction c with
  | nil => simp [mergeCart]
  | cons e rest ih =>
    by_cases h : e.id = pid
    · simp [mergeCart, h]
    · have hb : (e.id == pid) = false := by simp [h]
      simp only [mergeCart, hb, Bool.false_eq_true, if_false, List.map_cons]
      rw [ih]
      by_cases hm : pid ∈ rest.map fun e => e.id
      · rw [if_pos hm, if_pos (by simp [List.mem_cons, hm])]
      · rw [if_neg hm, if_neg (by simp [List.mem_cons, hm, Ne.symm h]),
          List.cons_append]

/-- C8: merging an id already present in the cart rewrites the first
matching entry in place: the id sequence and length are unchanged, the
total quantity recorded for that id grows by the merged quantity, and a
cart with pairwise-distinct ids keeps pairwise-distinct ids under any
merge — so carts built by add-to-cart never hold two entries with the
same product id. -/
theorem add_same_id_no_duplicate (cart : List CartEntry) (pid qty : Int)
    (h : pid ∈ cart.map fun e => e.id) :
    ((mergeCart cart pid qty).map fun e => e.id)
      = (cart.map fun e => e.id) ∧
    (mergeCart cart pid qty).length = cart.length ∧
    ((((mergeCart cart pid qty).filter fun e => e.id == pid).map
        fun e => e.quantity).sum
      = (((cart.filter fun e => e.id == pid).map fun e => e.quantity)).sum
        + qty) ∧
    (∀ c : List CartEntry, ((c.map fun e => e.id).Nodup) →
      ((mergeCart c pid qty).map fun e => e.id).Nodup) := by
  refine ⟨?_, ?_, ?_, ?_⟩
  · rw [mergeCart_ids, if_pos h]
  · have h1 := congrArg List.length (mergeCart_ids cart pid qty)
    rw [if_pos h] at h1
    simpa using h1
  · induction cart with
    | nil => simp at h
    | cons e rest ih =>
      by_cases he : e.id = pid
      · have hb : (e.id == pid) = true := by simp [he]
        simp [mergeCart, hb]
        ring
      · have hb : (e.id == pid) = false := by simp [he]
        have hmem : pid ∈ rest.map fun e => e.id := by
          have h' := h
          simp only [List.map_cons, List.mem_cons] at h'
          rcases h' with h1 | h1
          · exact absurd h1.symm he
          · exact h1
        simp [mergeCart, hb, ih hmem]
  · intro c hN
    rw [mergeCart_ids]
    by_cases hm : pid ∈ c.map fun e => e.id
    · rwa [if_pos hm]
    · rw [if_neg hm]
      simp [List.nodup_append, hN, hm]

/-- C8 witness: merging id 1 into a cart already holding id 1 keeps a
single entry and accumulates the quantity. -/
theorem add_same_id_no_duplicate_witness :
    ((mergeCart [CartEntry.mk 1 2, CartEntry.mk 3 1] 1 4).map fun e => e.id)
      = [(1 : Int), 3] ∧
    (mergeCart [CartEntry.mk 1 2, CartEntry.mk 3 1] 1 4).length = 2 := by
  have h := add_same_id_no_duplicate [CartEntry.mk 1 2, CartEntry.mk 3 1] 1 4
    (by decide)
  exact ⟨h.1, h.2.1⟩

/-- C9: an add-to-cart request whose product_id field is absent or does not
parse as an integer, or whose quantity field is present but unparseable, is
answered by the catch-all with the generic 500 JSON error — not by the 400
validation response; a missing field arrives as Python `None`, and
`int(None)` raises. -/
theorem unparseable_add_request_is_500 (ps : List Product)
    (cart : List CartEntry) (f1 f2 : Option String) :
    (parsePid f1 = none →
      add_to_cart ps cart f1 f2 = (.serverError, cart, ps)) ∧
    (parseQty f2 = none →
      add_to_cart ps cart f1 f2 = (.serverError, cart, ps)) ∧
    parsePid none = none ∧ pyInt? "abc" = none ∧
    httpCode .serverError = 500 ∧ httpCode .insufficientStock = 400 ∧
    AddStatus.serverError ≠ AddStatus.insufficientStock := by
  refine ⟨?_, ?_, rfl, by decide, rfl, rfl, by decide⟩
  · intro h
    simp [add_to_cart, h]
  · intro h
    cases hg1 : parsePid f1 with
    | none => simp [add_to_cart, hg1]
    | some pid => simp [add_to_cart, hg1, h]

/-- C9 witness: a missing product_id field and an unparseable product_id
field both answer 500 and leave cart and table alone. -/
theorem unparseable_add_request_is_500_witness :
    add_to_cart [prodA] [] none (some "2") = (.serverError, [], [prodA]) ∧
    add_to_cart [prodA] [] (some "xyz") (some "2")
      = (.serverError, [], [prodA]) := by
  exact ⟨(unparseable_add_request_is_500 [prodA] [] none (some "2")).1 rfl,
    (unparseable_add_request_is_500 [prodA] [] (some "xyz") (some "2")).1
      (by decide)⟩

/-- C10: the stock check compares only the requested quantity against
stock_quantity, never the quantity already in the cart: whenever the
request parses to the product's id and a quantity q at most the stock, the
add succeeds for EVERY cart state; n+1 repeated adds of q accumulate a
single entry of quantity (n+1)*q; and for any positive q some number of
repetitions pushes the accumulated quantity past the stock. -/
theorem stock_check_ignores_cart (p : Product) (q : Int)
    (f1 f2 : Option String) (hact : p.active = true)
    (hq : q ≤ p.stock_quantity) (hf1 : parsePid f1 = some p.id)
    (hf2 : parseQty f2 = some q) :
    (∀ cart, add_to_cart [p] cart f1 f2
      = (.success, mergeCart cart p.id q, [p])) ∧
    (∀ n : ℕ, (fun c => mergeCart c p.id q)^[n + 1] []
      = [CartEntry.mk p.id (((n + 1 : ℕ) : Int) * q)]) ∧
    (0 < q → ∃ n : ℕ, p.stock_quantity < ((n + 1 : ℕ) : Int) * q) := by
  refine ⟨?_, ?_, ?_⟩
  · intro cart
    simp [add_to_cart, hf1, hf2, hact, not_lt.mpr hq]
  · intro n
    induction n with
    | zero =>
      simp [mergeCart]
    | succ n ih =>
      rw [Function.iterate_succ_apply', ih]
      simp only [mergeCart, beq_self_eq_true, if_pos]
      have : ((n + 1 : ℕ) : Int) * q + q = ((n + 1 + 1 : ℕ) : Int) * q := by
        push_cast
        ring
      rw [this]
  · intro hq0
    refine ⟨p.stock_quantity.toNat, ?_⟩
    have h1 : p.stock_quantity < ((p.stock_quantity.toNat : Int) + 1) := by
      have := Int.self_le_toNat p.stock_quantity
      omega
    have h2 : ((p.stock_quantity.toNat : Int) + 1)
        ≤ ((p.stock_quantity.toNat + 1 : ℕ) : Int) * q := by
      have hcast : ((p.stock_quantity.toNat + 1 : ℕ) : Int)
          = (p.stock_quantity.toNat : Int) + 1 := by push_cast; ring
      rw [hcast]
      exact le_mul_of_one_le_right (by positivity) (by omega)
    exact lt_of_lt_of_le h1 h2

/-- C10 witness: with stock 5, two successive adds of quantity 5 both
succeed and leave one entry of quantity 10, exceeding the stock. -/
theorem stock_check_ignores_cart_witness :
    add_to_cart [prodA] [] (some "1") (some "5")
      = (.success, [CartEntry.mk 1 5], [prodA]) ∧
    add_to_cart [prodA] [CartEntry.mk 1 5] (some "1") (some "5")
      = (.success, [CartEntry.mk 1 10], [prodA]) := by
  have h := stock_check_ignores_cart prodA 5 (some "1") (some "5") rfl
    (by decide) (by decide) (by decide)
  constructor
  · simpa [mergeCart] using h.1 []
  · simpa [mergeCart] using h.1 [CartEntry.mk 1 5]

end ECommerce
